import Mathlib

/-!
Verification of the Land-Cover and DEM Analysis Flask application
(`app.py`) against its design specification.

The application is integration glue around a remote geospatial service
(Google Earth Engine).  We embed the locally observable logic shallowly:

* the boundary dataset `INDIA_DIST_FC` is modelled as a list of features
  carrying the `stname` and `dtname` attributes; the Earth Engine
  filter, aggregate, distinct and sort operations become the
  corresponding list operations;
* remote round trips that mint tile URLs, return the centroid or the
  land-cover histogram are modelled as oracle fields of a request
  environment; each group of remote calls inside the `try` block of
  `generate_map_data` carries an optional injected failure, the
  stringified exception the remote call would raise;
* Python floats are modelled as exact rationals, and `round(x, 2)` as
  rounding half to even on the exact value;
* the chart-building loop, the key parsing `int(float(k))`, the label
  lookup with its `Class N` fallback, and the route handlers follow the
  source line by line.
-/

namespace LandCoverApp

/-- A feature of the administrative boundary dataset `INDIA_DIST_FC`,
restricted to the two attributes the application reads. -/
structure Feature where
  stname : String
  dtname : String
deriving DecidableEq

/-- Rounding half to even to 2 decimal places, modelling Python
`round(x, 2)` (app.py line 274) on the exact rational value of the
operand; Python rounds the binary double nearest to `x` with ties going
to an even last digit, which this mirrors on exact rationals. -/
def pyRound2 (x : ℚ) : ℚ :=
  let y : ℚ := x * 100
  let f : Int := ⌊y⌋
  let n : Int :=
    if y - f < 1 / 2 then f
    else if 1 / 2 < y - f then f + 1
    else if f % 2 = 0 then f else f + 1
  (n : ℚ) / 100

/-- Models app.py line 274:
`area_sqkm = round((pixel_count * 100) / 1e6, 2)`
(a 10 m pixel is 100 square metres). -/
def area_sqkm (pixel_count : ℚ) : ℚ :=
  pyRound2 ((pixel_count * 100) / 1000000)

/-- The leading run of decimal digit characters. -/
def digitsPart : List Char → List Char
  | [] => []
  | c :: cs => if c.isDigit then c :: digitsPart cs else []

/-- Decimal value of a digit list, accumulator style. -/
def digitsToNat (acc : Nat) : List Char → Nat
  | [] => acc
  | c :: cs => digitsToNat (acc * 10 + (c.toNat - 48)) cs

/-- Models Python `int(float(key))` (app.py lines 269 and 272) on
histogram keys: a decimal numeral with an optional leading minus sign
and an optional fractional part is truncated toward zero, so only the
digits before the decimal point contribute. -/
def parseClassKey (s : String) : Int :=
  match s.data with
  | '-' :: rest => -(Int.ofNat (digitsToNat 0 (digitsPart rest)))
  | cs => Int.ofNat (digitsToNat 0 (digitsPart cs))

/-- Models the `dw_label_to_name` dictionary of app.py lines 263 to 266. -/
def dw_label_to_name : Int → Option String
  | 0 => some "Water"
  | 1 => some "Trees"
  | 2 => some "Grass"
  | 3 => some "Flooded vegetation"
  | 4 => some "Crops"
  | 5 => some "Shrub and scrub"
  | 6 => some "Built"
  | 7 => some "Bare"
  | 8 => some "Snow and ice"
  | _ => none

/-- Models app.py line 276:
the dictionary lookup `dw_label_to_name.get` with the synthesized
f-string `Class N` as the default. -/
def labelFor (class_value : Int) : String :=
  (dw_label_to_name class_value).getD ("Class " ++ toString class_value)

/-- Models the chart-building step of app.py lines 259 to 279: sort the
histogram keys by their numeric class code, then emit one label and one
area value per key.  The Python dict is modelled as an association list
in insertion order; because dict keys are unique, stably sorting the
key-value pairs by numeric key coincides with sorting the keys and then
indexing the dict, and Python `sorted` is a stable sort exactly like
`List.insertionSort`. -/
def buildChart (histogram : List (String × ℚ)) : List String × List ℚ :=
  let sorted_keys :=
    List.insertionSort (fun a b => parseClassKey a.1 ≤ parseClassKey b.1) histogram
  (sorted_keys.map fun kv => labelFor (parseClassKey kv.1),
   sorted_keys.map fun kv => area_sqkm kv.2)

/-- The five module-level Earth Engine assets of app.py lines 18 to 28;
after the `except` branch of the startup block (lines 32 to 40) all five
are `None`, modelled by `none` and `false`.  The boundary collection
carries its feature list, the other four are opaque handles of which the
request handlers only observe presence. -/
structure Assets where
  india_dist_fc : Option (List Feature)
  dynamic_world : Bool
  srtm_dem_90m : Bool
  hydrosheds_rivers_fc : Bool
  jrc_gsw : Bool

/-- Models `all([INDIA_DIST_FC, DYNAMIC_WORLD, SRTM_DEM_90M,
HYDROSHEDS_RIVERS_FC, JRC_GSW])` at app.py line 165. -/
def Assets.allLoaded (a : Assets) : Bool :=
  a.india_dist_fc.isSome && a.dynamic_world && a.srtm_dem_90m &&
    a.hydrosheds_rivers_fc && a.jrc_gsw

/-- The JSON body of a `POST /generate_map_data` request: `data.get`
yields `none` for a missing key (app.py lines 158 to 159). -/
structure Body where
  state : Option String
  district : Option String

/-- Python falsiness of `data.get(field)`: `None` and the empty string
are falsy, every other string is truthy (app.py line 161). -/
def falsy : Option String → Bool
  | none => true
  | some s => s == ""

/-- The remote service as observed by one `generate_map_data` request.
The three failure slots model an exception raised during, respectively,
the layer construction and tile URL requests (app.py lines 183 to 241),
the centroid fetch (line 244), and the histogram reduction (lines 252
to 257); the code reaches these groups in this order, and the first
raised exception aborts the `try` block.  The remaining fields are the
values the remote calls return when they succeed; `centroid_coords` is
the GeoJSON `[longitude, latitude]` pair of `coordinates()`. -/
structure RemoteEnv where
  layer_failure : Option String
  centroid_failure : Option String
  histogram_failure : Option String
  landcover_url : String
  dem_url : String
  slope_url : String
  rivers_url : String
  gsw_url : String
  boundary_url : String
  centroid_coords : ℚ × ℚ
  histogram : List (String × ℚ)

/-- The success payload of app.py lines 282 to 296. -/
structure SuccessPayload where
  landcover_url : String
  dem_url : String
  slope_url : String
  rivers_url : String
  gsw_url : String
  boundary_url : String
  center : ℚ × ℚ
  zoom : Nat
  chart_labels : List String
  chart_values : List ℚ
  status : String

/-- A JSON response body: either `{error: msg}` or the success payload. -/
inductive Resp where
  | err (msg : String)
  | ok (p : SuccessPayload)

/-- Models the exact-match filter of app.py lines 170 to 173:
`ee.Filter.And` of two `ee.Filter.eq` filters, one on `stname` against
the requested state and one on `dtname` against the requested
district. -/
def matchDistrict (fc : List Feature) (state district : String) : List Feature :=
  fc.filter fun f => f.stname == state && f.dtname == district

/-- Models the `generate_map_data` route handler (app.py lines 151 to
300) as a function of the startup asset state, the remote environment
for this request, and the request body.  Returns the HTTP status code
and the JSON body. -/
def generate_map_data (a : Assets) (env : RemoteEnv) (b : Body) : Nat × Resp :=
  if falsy b.state || falsy b.district then
    (400, .err "Missing state or district")
  else if !a.allLoaded then
    (500, .err "Earth Engine assets not loaded. Check server logs for EE initialization errors.")
  else
    match a.india_dist_fc with
    | none =>
        (500, .err "Earth Engine assets not loaded. Check server logs for EE initialization errors.")
    | some fc =>
      let district_fc := matchDistrict fc (b.state.getD "") (b.district.getD "")
      if district_fc.length = 0 then
        (404, .err "District not found in the dataset.")
      else
        match env.layer_failure <|> env.centroid_failure <|> env.histogram_failure with
        | some e =>
            (500, .err ("Map data generation failed: " ++ e ++ ". Check server logs."))
        | none =>
            let chart := buildChart env.histogram
            (200, .ok {
              landcover_url := env.landcover_url
              dem_url := env.dem_url
              slope_url := env.slope_url
              rivers_url := env.rivers_url
              gsw_url := env.gsw_url
              boundary_url := env.boundary_url
              center := (env.centroid_coords.2, env.centroid_coords.1)
              zoom := 9
              chart_labels := chart.1
              chart_values := chart.2
              status := "success" })

/-- A JSON response of the `GET /get_states` endpoint. -/
inductive StatesResp where
  | err (msg : String)
  | states (l : List String)
deriving DecidableEq

/-- Models app.py line 31: on a successful startup the states list is
the `aggregate_array` of `stname` over `INDIA_DIST_FC` followed by
`distinct()` and `sort()`, and the
`except` branch leaves it `[]`.  Earth Engine `distinct` keeps one
occurrence of each value and `sort` orders ascending; since the result
is then sorted, which occurrence `distinct` keeps is immaterial, so we
use `List.dedup` followed by a stable ascending sort. -/
def startup_states_list (load : Option (List Feature)) : List String :=
  match load with
  | none => []
  | some fc => List.insertionSort (· ≤ ·) ((fc.map Feature.stname).dedup)

/-- Models the `get_states` route handler (app.py lines 131 to 136);
`if not STATES_LIST` is the Python falsiness of a list, that is
emptiness. -/
def get_states (states_list : List String) : Nat × StatesResp :=
  if states_list.isEmpty then
    (500, .err "States data not available. Check EE connection or asset path.")
  else
    (200, .states states_list)

/-- A JSON response of the `GET /get_districts` endpoint. -/
inductive DistrictsResp where
  | err (msg : String)
  | districts (l : List String)
deriving DecidableEq

/-- Models the district query of app.py lines 144 to 145:
filter by `stname`, aggregate `dtname`, `distinct`, `sort`. -/
def districts_of (fc : List Feature) (state_name : String) : List String :=
  List.insertionSort (· ≤ ·)
    (((fc.filter fun f => f.stname == state_name).map Feature.dtname).dedup)

/-- Models the `get_districts` route handler (app.py lines 138 to 149).
The remote evaluation of the district query is modelled as the pure
list computation `districts_of` over the loaded boundary features;
the `except` branch for a request-time transport failure is below the
abstraction level of this model. -/
def get_districts (india_dist_fc : Option (List Feature)) (state_name : String) :
    Nat × DistrictsResp :=
  match india_dist_fc with
  | none => (500, .err "EE asset for districts is not loaded.")
  | some fc => (200, .districts (districts_of fc state_name))

/-- Whether `pat` is an initial segment of `s`. -/
def leadsWith : List Char → List Char → Bool
  | _, [] => true
  | [], _ :: _ => false
  | c :: cs, p :: ps => c == p && leadsWith cs ps

/-- Auxiliary scan for `hasChunk`. -/
def hasChunkAux (pat : List Char) : List Char → Bool
  | [] => leadsWith [] pat
  | c :: cs => leadsWith (c :: cs) pat || hasChunkAux pat cs

/-- Whether the string `pat` occurs contiguously inside `s`; used to
state that an error message does or does not include a given name. -/
def hasChunk (s pat : String) : Bool :=
  hasChunkAux pat.data s.data

/-- A loaded asset state whose boundary dataset holds one feature. -/
def assetsEx : Assets := ⟨some [⟨"Telangana", "Adilabad"⟩], true, true, true, true⟩

/-- A remote environment for one request in which every remote call
succeeds. -/
def envEx : RemoteEnv :=
  ⟨none, none, none, "LC", "DEM", "SLOPE", "RIV", "GSW", "BND", (78, 17), []⟩

/-- The same environment with a failure injected into the layer
construction. -/
def envFailEx : RemoteEnv := { envEx with layer_failure := some "boom" }

/-- A request body naming the feature of `assetsEx`. -/
def bodyEx : Body := ⟨some "Telangana", some "Adilabad"⟩

/-- A request body naming a district absent from `assetsEx`. -/
def bodyMissEx : Body := ⟨some "Telangana", some "Nowhere"⟩

/-- Evaluation of the chart-building step on the example histogram of
the specification, section 8. -/
theorem buildChart_example_eval :
    buildChart [("3.0", (10 : ℚ)), ("0.0", 5), ("8.0", 2)] =
      (["Water", "Flooded vegetation", "Snow and ice"], [0, 0, 0]) := by
  have h10 : area_sqkm 10 = 0 := by norm_num [area_sqkm, pyRound2]
  have h5 : area_sqkm 5 = 0 := by norm_num [area_sqkm, pyRound2]
  have h2 : area_sqkm 2 = 0 := by norm_num [area_sqkm, pyRound2]
  have p3 : parseClassKey "3.0" = 3 := by decide
  have p0 : parseClassKey "0.0" = 0 := by decide
  have p8 : parseClassKey "8.0" = 8 := by decide
  have l0 : labelFor 0 = "Water" := by decide
  have l3 : labelFor 3 = "Flooded vegetation" := by decide
  have l8 : labelFor 8 = "Snow and ice" := by decide
  simp [buildChart, List.insertionSort, List.orderedInsert, p3, p0, p8, h10, h5, h2,
    l0, l3, l8]

/-- C1: for every non-negative pixel count `p` reported in the
land-cover histogram, the chart value produced for that class is
`round(p * 100 / 1e6, 2)` square kilometres, and in particular
`p = 50000` maps to `5.0`. -/
theorem chart_value_is_area (hist : List (String × ℚ)) (k : String) (p : ℚ)
    (_hp : 0 ≤ p) (hmem : (k, p) ∈ hist) :
    area_sqkm p ∈ (buildChart hist).2 ∧ area_sqkm 50000 = 5 := by
  constructor
  · simp only [buildChart, List.mem_map]
    exact ⟨(k, p), (List.mem_insertionSort _).mpr hmem, rfl⟩
  · norm_num [area_sqkm, pyRound2]

theorem chart_value_is_area_witness :
    (0 : ℚ) ≤ 50000 ∧ ("0.0", (50000 : ℚ)) ∈ [("0.0", (50000 : ℚ))] ∧
      (area_sqkm 50000 ∈ (buildChart [("0.0", (50000 : ℚ))]).2 ∧ area_sqkm 50000 = 5) :=
  ⟨by norm_num, by simp,
   chart_value_is_area [("0.0", (50000 : ℚ))] "0.0" 50000 (by norm_num) (by simp)⟩

/-- C2, counterexample: on the histogram input of the claim the chart
values are not `[0.5, 1.0, 0.2]`; the area formula sends pixel counts
5, 10 and 2 to 0.0 square kilometres each. -/
theorem chart_example_order_cex :
    ¬ (buildChart [("3.0", (10 : ℚ)), ("0.0", 5), ("8.0", 2)] =
        (["Water", "Flooded vegetation", "Snow and ice"], [1/2, 1, 1/5])) := by
  rw [buildChart_example_eval]
  intro h
  have h0 : (0 : ℚ) = 1/2 := congrArg (fun q => q.2.headI) h
  norm_num at h0

/-- C2, amended: for the histogram input with keys `3.0`, `0.0`, `8.0`
and pixel counts 10, 5, 2, the chart-building step outputs the entries
reordered by ascending numeric class key with labels
`[Water, Flooded vegetation, Snow and ice]`, and the area formula
sends every one of these pixel counts to the value `0.0` (not to
`[0.5, 1.0, 0.2]`: `round(5 * 100 / 1e6, 2) = 0.0`). -/
theorem chart_example_order :
    buildChart [("3.0", (10 : ℚ)), ("0.0", 5), ("8.0", 2)] =
      (["Water", "Flooded vegetation", "Snow and ice"], [0, 0, 0]) :=
  buildChart_example_eval

/-- Outside the codes 0 to 8 the label dictionary has no entry. -/
theorem dw_label_to_name_eq_none (v : Int) (h : v < 0 ∨ 8 < v) :
    dw_label_to_name v = none := by
  unfold dw_label_to_name
  split
  any_goals omega
  rfl

/-- C3: a histogram key whose numeric class code is outside the lookup
table of codes 0 to 8 contributes the synthesized label `Class N` to
the chart, and the chart-building step is total, so it does not fail;
in particular code 9 yields `Class 9`. -/
theorem unknown_class_label (hist : List (String × ℚ)) (kv : String × ℚ) (v : Int)
    (hmem : kv ∈ hist) (hv : parseClassKey kv.1 = v) (h : v < 0 ∨ 8 < v) :
    ("Class " ++ toString v) ∈ (buildChart hist).1 ∧ labelFor 9 = "Class 9" := by
  constructor
  · simp only [buildChart, List.mem_map]
    refine ⟨kv, (List.mem_insertionSort _).mpr hmem, ?_⟩
    rw [hv]
    simp [labelFor, dw_label_to_name_eq_none v h]
  · decide

theorem unknown_class_label_witness :
    ("9.0", (1 : ℚ)) ∈ [("9.0", (1 : ℚ))] ∧ parseClassKey "9.0" = 9 ∧
      ((8 : Int) < 9 ∨ True) ∧
      (("Class " ++ toString (9 : Int)) ∈ (buildChart [("9.0", (1 : ℚ))]).1 ∧
        labelFor 9 = "Class 9") :=
  ⟨by simp, by decide, Or.inl (by norm_num),
   unknown_class_label [("9.0", (1 : ℚ))] ("9.0", 1) 9 (by simp) (by decide)
     (Or.inr (by norm_num))⟩

/-- C4: a `POST /generate_map_data` body lacking the `state` field or
the `district` field is answered with status 400 and an error field;
the result does not depend on the asset state or on the remote
environment, so the rejection happens before any asset-availability
check or region lookup. -/
theorem missing_field_400 (a : Assets) (env : RemoteEnv) (s d : Option String) :
    generate_map_data a env ⟨none, d⟩ = (400, .err "Missing state or district") ∧
    generate_map_data a env ⟨s, none⟩ = (400, .err "Missing state or district") := by
  constructor <;> simp [generate_map_data, falsy]

/-- C5: when the exact-match filter over the boundary dataset yields
zero features, `generate_map_data` answers 404 with an error field;
the result does not depend on the remote environment, so the emptiness
check precedes every layer construction and histogram operation. -/
theorem region_not_found_404 (a : Assets) (env : RemoteEnv) (b : Body)
    (fc : List Feature)
    (hs : falsy b.state = false) (hd : falsy b.district = false)
    (hl : a.allLoaded = true)
    (hfc : a.india_dist_fc = some fc)
    (hempty : matchDistrict fc (b.state.getD "") (b.district.getD "") = []) :
    generate_map_data a env b = (404, .err "District not found in the dataset.") := by
  simp [generate_map_data, hs, hd, hl, hfc, hempty]

theorem region_not_found_404_witness :
    falsy bodyMissEx.state = false ∧ falsy bodyMissEx.district = false ∧
    assetsEx.allLoaded = true ∧
    assetsEx.india_dist_fc = some [⟨"Telangana", "Adilabad"⟩] ∧
    matchDistrict [⟨"Telangana", "Adilabad"⟩]
      (bodyMissEx.state.getD "") (bodyMissEx.district.getD "") = [] ∧
    generate_map_data assetsEx envEx bodyMissEx =
      (404, .err "District not found in the dataset.") :=
  ⟨by decide, by decide, by decide, rfl, by decide,
   region_not_found_404 assetsEx envEx bodyMissEx [⟨"Telangana", "Adilabad"⟩]
     (by decide) (by decide) (by decide) rfl (by decide)⟩

/-- C6, counterexample: a failure during layer construction yields
status 500, but the error message of the response contains neither the
state name nor the district name; those are only written to the server
log (app.py line 299), while the response body interpolates only the
underlying cause (line 300). -/
theorem remote_failure_message_cex :
    generate_map_data assetsEx envFailEx bodyEx =
      (500, .err "Map data generation failed: boom. Check server logs.") ∧
    hasChunk "Map data generation failed: boom. Check server logs." "boom" = true ∧
    hasChunk "Map data generation failed: boom. Check server logs." "Telangana" = false ∧
    hasChunk "Map data generation failed: boom. Check server logs." "Adilabad" = false := by
  refine ⟨?_, by decide, by decide, by decide⟩
  simp [generate_map_data, assetsEx, envFailEx, envEx, bodyEx, falsy, matchDistrict,
    Assets.allLoaded]

/-- A pattern is found at the start of a list it leads. -/
theorem leadsWith_append : ∀ (p rest : List Char), leadsWith (p ++ rest) p = true
  | [], _ => by simp [leadsWith]
  | c :: cs, rest => by simp [leadsWith, leadsWith_append cs rest]

/-- A scan succeeds when the pattern leads the scanned list. -/
theorem hasChunkAux_of_leadsWith (pat s : List Char) (h : leadsWith s pat = true) :
    hasChunkAux pat s = true := by
  cases s with
  | nil => simpa [hasChunkAux] using h
  | cons c cs => simp [hasChunkAux, h]

/-- A scan succeeds after prepending any list. -/
theorem hasChunkAux_append (pat a s : List Char) (h : hasChunkAux pat s = true) :
    hasChunkAux pat (a ++ s) = true := by
  induction a with
  | nil => simpa using h
  | cons c cs ih => simp [hasChunkAux, List.cons_append, ih]

/-- A string occurs inside any surrounding concatenation. -/
theorem hasChunk_middle (a e b : String) : hasChunk (a ++ e ++ b) e = true := by
  unfold hasChunk
  have hd : (a ++ e ++ b).data = a.data ++ (e.data ++ b.data) := by
    simp [List.append_assoc]
  rw [hd]
  exact hasChunkAux_append _ _ _ (hasChunkAux_of_leadsWith _ _ (leadsWith_append _ _))

/-- C6, amended: every failure raised during layer construction, the
centroid fetch or the histogram reduction makes `generate_map_data`
answer status 500 with the message
`Map data generation failed: {cause}. Check server logs.`, which
includes the underlying cause but not the state or district names;
those appear only in the server log. -/
theorem remote_failure_message (a : Assets) (env : RemoteEnv) (b : Body)
    (fc : List Feature) (e : String)
    (hs : falsy b.state = false) (hd : falsy b.district = false)
    (hl : a.allLoaded = true)
    (hfc : a.india_dist_fc = some fc)
    (hne : matchDistrict fc (b.state.getD "") (b.district.getD "") ≠ [])
    (hf : (env.layer_failure <|> env.centroid_failure <|> env.histogram_failure) = some e) :
    generate_map_data a env b =
      (500, .err ("Map data generation failed: " ++ e ++ ". Check server logs.")) ∧
    hasChunk ("Map data generation failed: " ++ e ++ ". Check server logs.") e = true := by
  refine ⟨?_, hasChunk_middle _ _ _⟩
  simp [generate_map_data, hs, hd, hl, hfc, hf, List.length_eq_zero, hne]

theorem remote_failure_message_witness :
    (envFailEx.layer_failure <|> envFailEx.centroid_failure <|>
        envFailEx.histogram_failure) = some "boom" ∧
    generate_map_data assetsEx envFailEx bodyEx =
      (500, .err ("Map data generation failed: " ++ "boom" ++ ". Check server logs.")) :=
  ⟨by decide,
   (remote_failure_message assetsEx envFailEx bodyEx [⟨"Telangana", "Adilabad"⟩] "boom"
     (by decide) (by decide) (by decide) rfl (by decide) (by decide)).1⟩

/-- C7: with the boundary dataset loaded, `get_districts` answers 200
with exactly the distinct district names matching the state, sorted
ascending and without duplicates; a state with no matching districts
gets 200 with the empty list, not an error; with the dataset
unavailable it answers 500 with an error field. -/
theorem get_districts_contract :
    (∀ (fc : List Feature) (s : String),
      (get_districts (some fc) s).1 = 200 ∧
      (get_districts (some fc) s).2 = .districts (districts_of fc s) ∧
      (districts_of fc s).Sorted (· ≤ ·) ∧ (districts_of fc s).Nodup ∧
      (∀ d, d ∈ districts_of fc s ↔ ∃ f, f ∈ fc ∧ f.stname = s ∧ f.dtname = d)) ∧
    (∀ (fc : List Feature) (s : String), (∀ f ∈ fc, f.stname ≠ s) →
      get_districts (some fc) s = (200, .districts [])) ∧
    (∀ s, get_districts none s = (500, .err "EE asset for districts is not loaded.")) := by
  refine ⟨fun fc s => ⟨rfl, rfl, ?_, ?_, fun d => ?_⟩, fun fc s h => ?_, fun s => rfl⟩
  · exact List.sorted_insertionSort _ _
  · exact ((List.perm_insertionSort _ _).nodup_iff).mpr (List.nodup_dedup _)
  · simp only [districts_of, List.mem_insertionSort, List.mem_dedup, List.mem_map,
      List.mem_filter, Bool.and_eq_true, beq_iff_eq]
    constructor
    · rintro ⟨f, ⟨hf, hst⟩, hdt⟩
      exact ⟨f, hf, hst, hdt⟩
    · rintro ⟨f, hf, hst, hdt⟩
      exact ⟨f, ⟨hf, hst⟩, hdt⟩
  · have hfil : fc.filter (fun f => f.stname == s) = [] := by
      rw [List.filter_eq_nil_iff]
      intro f hf
      simpa using h f hf
    simp [get_districts, districts_of, hfil, List.insertionSort]

theorem get_districts_contract_witness :
    (∀ f ∈ [Feature.mk "A" "B"], f.stname ≠ "Z") ∧
    get_districts (some [Feature.mk "A" "B"]) "Z" = (200, .districts []) ∧
    get_districts none "X" = (500, .err "EE asset for districts is not loaded.") :=
  ⟨by decide,
   get_districts_contract.2.1 [Feature.mk "A" "B"] "Z" (by decide),
   get_districts_contract.2.2 "X"⟩

/-- C8: every successful `generate_map_data` response carries zoom 9,
the centroid coordinate pair with its components swapped from the
remote `[longitude, latitude]` order into `[latitude, longitude]`, the
six tile URL fields, the chart data, and status `success`. -/
theorem success_payload_shape (a : Assets) (env : RemoteEnv) (b : Body)
    (p : SuccessPayload)
    (h : generate_map_data a env b = (200, .ok p)) :
    p.zoom = 9 ∧ p.center = (env.centroid_coords.2, env.centroid_coords.1) ∧
    p.status = "success" ∧
    p.landcover_url = env.landcover_url ∧ p.dem_url = env.dem_url ∧
    p.slope_url = env.slope_url ∧ p.rivers_url = env.rivers_url ∧
    p.gsw_url = env.gsw_url ∧ p.boundary_url = env.boundary_url ∧
    p.chart_labels = (buildChart env.histogram).1 ∧
    p.chart_values = (buildChart env.histogram).2 := by
  simp only [generate_map_data] at h
  split at h
  · simp at h
  · split at h
    · simp at h
    · split at h
      · simp at h
      · split at h
        · simp at h
        · split at h
          · simp at h
          · simp only [Prod.mk.injEq, Resp.ok.injEq] at h
            obtain ⟨-, hp⟩ := h
            subst hp
            exact ⟨rfl, rfl, rfl, rfl, rfl, rfl, rfl, rfl, rfl, rfl, rfl⟩

/-- The success payload produced by `envEx` for the region of
`assetsEx`. -/
def payloadEx : SuccessPayload :=
  ⟨"LC", "DEM", "SLOPE", "RIV", "GSW", "BND", (17, 78), 9, [], [], "success"⟩

theorem success_payload_shape_witness :
    generate_map_data assetsEx envEx bodyEx = (200, .ok payloadEx) ∧
    payloadEx.zoom = 9 :=
  ⟨rfl, (success_payload_shape assetsEx envEx bodyEx payloadEx rfl).1⟩

/-- C9: `get_states` answers 500 with an error field exactly when the
cached states list is empty and 200 with the list otherwise, and the
startup computation gives an empty list both for a successfully loaded
empty boundary dataset and for a failed startup load, so the two are
indistinguishable through this endpoint. -/
theorem get_states_contract :
    (∀ sl : List String, sl = [] →
      get_states sl =
        (500, .err "States data not available. Check EE connection or asset path.")) ∧
    (∀ sl : List String, sl ≠ [] → get_states sl = (200, .states sl)) ∧
    get_states (startup_states_list (some [])) = get_states (startup_states_list none) := by
  refine ⟨?_, ?_, rfl⟩
  · intro sl h
    subst h
    rfl
  · intro sl h
    cases sl with
    | nil => exact absurd rfl h
    | cons a l => rfl

theorem get_states_contract_witness :
    get_states [] =
      (500, .err "States data not available. Check EE connection or asset path.") ∧
    get_states ["Telangana"] = (200, .states ["Telangana"]) :=
  ⟨get_states_contract.1 [] rfl, get_states_contract.2.1 ["Telangana"] (by decide)⟩

/-- C10: a request whose `state` or `district` field is present but
equal to the empty string is rejected with 400 exactly as if the field
were missing, independently of the asset state and of the remote
environment, so an empty-string name never reaches region resolution. -/
theorem empty_string_field_400 (a : Assets) (env : RemoteEnv) (s d : Option String) :
    generate_map_data a env ⟨some "", d⟩ = (400, .err "Missing state or district") ∧
    generate_map_data a env ⟨s, some ""⟩ = (400, .err "Missing state or district") ∧
    generate_map_data a env ⟨some "", d⟩ = generate_map_data a env ⟨none, d⟩ ∧
    generate_map_data a env ⟨s, some ""⟩ = generate_map_data a env ⟨s, none⟩ := by
  refine ⟨?_, ?_, ?_, ?_⟩ <;> simp [generate_map_data, falsy]

end LandCoverApp
